import Mathlib

/-!
Shallow embedding of the LawWise backend (`backend/server.js`).

The backend is an Express server.  Its core is a session-scoped document
context store: `POST /api/upload` parses a PDF, stores the extracted text in
the in-memory object `documentContextStore` under a fresh `uuidv4()` session
id, and schedules a `setTimeout` that deletes the entry after 30 minutes;
`POST /api/chat` looks the session up and answers a follow-up question from
the stored text.  An earlier revision of the same file also contains the
translation helper `translateText` and the provider pair
`getSarvamChatResponse` / `getGroqAnalysis` (primary answering provider with
fallback).

External collaborators (pdf-parse, the Groq and Sarvam HTTP APIs) are
modelled as parameters of type `Except String _`: `.error e` models a thrown
exception whose `error.message` is `e`, and an `Option String` payload models
a response field that may be `undefined` (absent) under JavaScript
truthiness.
-/

/-- JavaScript `x || d` for an optional string value `x`: `undefined`
(modelled `none`) and the empty string are falsy, so they select the default
`d`; any other string is returned as is. -/
def jsOr (x : Option String) (d : String) : String :=
  match x with
  | none => d
  | some s => if s = "" then d else s

/-- JavaScript falsiness test `!x` for an optional string value: true exactly
on `undefined` (modelled `none`) and the empty string. -/
def jsFalsy (x : Option String) : Bool :=
  match x with
  | none => true
  | some s => s = ""

/-- Model of JavaScript `String.prototype.toLowerCase` (ASCII range), used by
the upload handler on `error.message`. -/
def toLowerCase (s : String) : String :=
  String.mk (s.data.map Char.toLower)

/-- Model of JavaScript `String.prototype.includes`: does `pat` occur as a
contiguous substring of `s`? -/
def containsSubstr (s pat : String) : Bool :=
  (List.range (s.data.length + 1)).any (fun i => pat.data.isPrefixOf (s.data.drop i))

/-- The corruption test of the upload handler's catch block:
`error.message && error.message.toLowerCase().includes('xref')`. -/
def isXrefError (msg : String) : Bool :=
  containsSubstr (toLowerCase msg) "xref"

/-- A chat message `{ role, content }` as sent to the AI providers. -/
structure Message where
  role : String
  content : String
deriving DecidableEq

/-- Translation helper `translateText(text, targetLanguageCode,
sourceLanguageCode)` from the first revision of `server.js`.  `apiResult` models the outcome of the
`axios.post` call to the Sarvam translate endpoint: `.error e` a thrown
error, `.ok t` a response whose `data.translated_text` is `t` (`none` when
the field is absent).  English targets skip the call; a thrown error or a
falsy `translated_text` falls back to the original `text`. -/
def translateText (text targetLanguageCode _sourceLanguageCode : String)
    (apiResult : Except String (Option String)) : String :=
  if targetLanguageCode = "en-IN" then
    text
  else
    match apiResult with
    | .ok translated => jsOr translated text
    | .error _ => text

/-- Fallback answering provider `getGroqAnalysis(messages)` from the first
revision of `server.js`.  `groq` models the Groq SDK call as a function
of the messages, returning `choices[0]?.message?.content` (`none` when
absent) or throwing.  A falsy content yields the fixed apology; a thrown
error yields the generic service-error sentence. -/
def getGroqAnalysis (groq : List Message → Except String (Option String))
    (messages : List Message) : String :=
  match groq messages with
  | .ok content => jsOr content "I was unable to analyze the document."
  | .error _ => "Sorry, I encountered an error while analyzing the document with the AI service."

/-- Primary answering provider `getSarvamChatResponse(messages)` from the
first revision of `server.js`.  On a thrown Sarvam error it
falls back to `getGroqAnalysis` on the same messages. -/
def getSarvamChatResponse (sarvam groq : List Message → Except String (Option String))
    (messages : List Message) : String :=
  match sarvam messages with
  | .ok content => jsOr content "I was unable to process your request."
  | .error _ => getGroqAnalysis groq messages

/-- Model of `uuidv4()` as an injective fresh-id supply: the `n`-th generated
session id, for a process that has performed `n` prior generations.  The
idealisation (distinct draws never collide) is the property the code relies
on uuid v4 for. -/
def genId (n : Nat) : String :=
  String.mk (List.replicate (n + 1) 's')

/-- One entry of `documentContextStore` (`sid ↦ documentText`), together
with the absolute firing time of the 30-minute `setTimeout` scheduled for it
at creation (the two are created together and only the timeout deletes the
entry, so they evolve in lockstep). -/
structure Entry where
  sid : String
  documentText : String
  expiresAt : Nat
deriving DecidableEq

/-- Lookup `documentContextStore[sid]` (`none` models `undefined`). -/
def storeGet (l : List Entry) (sid : String) : Option String :=
  (l.find? (fun e => e.sid == sid)).map Entry.documentText

/-- Assignment `documentContextStore[e.sid] = ...`: replace the entry when
the key is present, otherwise add it. -/
def storeSet (l : List Entry) (e : Entry) : List Entry :=
  if l.any (fun x => x.sid == e.sid) then
    l.map (fun x => if x.sid == e.sid then e else x)
  else
    l ++ [e]

/-- Deletion `delete documentContextStore[sid]`, as run by the scheduled
expiry callback; a no-op when the key is absent. -/
def expire (l : List Entry) (sid : String) : List Entry :=
  l.filter (fun e => !(e.sid == sid))

/-- The fixed TTL of the upload handler's `setTimeout`:
`1000 * 60 * 30` milliseconds (30 minutes). -/
def TTL : Nat := 1000 * 60 * 30

/-- Server state: the document context store, the number of uuids generated
so far (the fresh-id supply counter), and the current clock in
milliseconds. -/
structure ServerState where
  store : List Entry
  counter : Nat
  now : Nat
deriving DecidableEq

/-- Outcome of the `/api/upload` route: `ok` is the 200 response carrying
the AI summary and the new session id, `badRequest` a 400 response,
`serverError` a 500 response. -/
inductive UploadResult where
  | ok (message sessionId : String)
  | badRequest (error : String)
  | serverError (error : String)
deriving DecidableEq

/-- Outcome of the `/api/chat` route: `ok` is the 200 response,
`badRequest` a 400, `notFound` the distinguishable 404 session-expired
signal, `serverError` a 500. -/
inductive ChatResult where
  | ok (message : String)
  | badRequest (error : String)
  | notFound (error : String)
  | serverError (error : String)
deriving DecidableEq

/-- Initial analysis call `getInitialAIAnalysis(documentText)` from the
second revision of `server.js`: calls the Groq SDK (modelled by `groq`,
which may throw) and
applies the `|| "I was unable to analyze the document."` default to the
returned content. -/
def getInitialAIAnalysis (groq : String → Except String (Option String))
    (documentText : String) : Except String String :=
  match groq documentText with
  | .error e => .error e
  | .ok content => .ok (jsOr content "I was unable to analyze the document.")

/-- Follow-up call `getFollowUpAIResponse(documentText, question)` from the
second revision of `server.js`: calls the Groq SDK (modelled by `groq`) and
applies the
`|| "Sorry, I couldn't find an answer to that question."` default. -/
def getFollowUpAIResponse (groq : String → String → Except String (Option String))
    (documentText question : String) : Except String String :=
  match groq documentText question with
  | .error e => .error e
  | .ok content => .ok (jsOr content "Sorry, I couldn't find an answer to that question.")

/-- The catch block of the `/api/upload` handler: an error whose lowercased
message contains `'xref'` is reported as the 400 corrupted-PDF response,
anything else as the generic 500. -/
def uploadCatch (e : String) : UploadResult :=
  if isXrefError e then
    UploadResult.badRequest "The uploaded PDF appears to be corrupted. Please re-save it and try again."
  else
    UploadResult.serverError "Failed to process the PDF file."

/-- The server state right after the session-creating lines of the upload
handler: `const sessionId = uuidv4()`,
`documentContextStore[sessionId] = documentText`, and the scheduling of the
30-minute `setTimeout`. -/
def uploadState (st : ServerState) (documentText : String) : ServerState :=
  { store := storeSet st.store ⟨genId st.counter, documentText, st.now + TTL⟩
    counter := st.counter + 1
    now := st.now }

/-- The `app.post('/api/upload')` handler of the second revision of
`server.js`.  `hasFile` models `req.file` being present; `pdfResult` the
outcome of `pdf(req.file.buffer)` (`.ok` the extracted text, `.error` a
thrown parse error); `groq` the Groq call inside `getInitialAIAnalysis`.
On a successful parse it generates `uuidv4()`, stores the text, schedules
the 30-minute deletion, and only then calls the AI; a throw anywhere in the
`try` block goes to `uploadCatch` (leaving any already-created session in
place). -/
def handleUpload (st : ServerState) (hasFile : Bool)
    (pdfResult : Except String String)
    (groq : String → Except String (Option String)) :
    UploadResult × ServerState :=
  if !hasFile then
    (UploadResult.badRequest "No PDF file uploaded.", st)
  else
    match pdfResult with
    | .error e => (uploadCatch e, st)
    | .ok documentText =>
      match getInitialAIAnalysis groq documentText with
      | .error e => (uploadCatch e, uploadState st documentText)
      | .ok aiSummary => (UploadResult.ok aiSummary (genId st.counter), uploadState st documentText)

/-- The `app.post('/api/chat')` handler of the second revision of
`server.js` (the spec's `handleFollowUp`).  `sessionId` and `question`
model the request-body fields (`none` = absent); `groq` the Groq call
inside `getFollowUpAIResponse`.  A falsy field gives the 400; a falsy
lookup result (`undefined` or `""`) gives the 404 session-expired signal;
a thrown AI error gives the 500. -/
def handleFollowUp (st : ServerState) (sessionId question : Option String)
    (groq : String → String → Except String (Option String)) :
    ChatResult × ServerState :=
  if jsFalsy sessionId || jsFalsy question then
    (ChatResult.badRequest "Session ID and question are required.", st)
  else
    if jsFalsy (storeGet st.store (sessionId.getD "")) then
      (ChatResult.notFound "Your document session has expired or is invalid. Please upload the document again.", st)
    else
      match getFollowUpAIResponse groq ((storeGet st.store (sessionId.getD "")).getD "")
          (question.getD "") with
      | .error _ => (ChatResult.serverError "Failed to get a response from the AI.", st)
      | .ok aiResponse => (ChatResult.ok aiResponse, st)

/-- A session id the process has issued so far (one of the first `n` draws
of the uuid supply). -/
def issuedBefore (n : Nat) (sid : String) : Prop :=
  ∃ k, k < n ∧ sid = genId k

/-- Reachability invariant of the server state: every stored session id was
issued by the uuid supply, and store keys are pairwise distinct. -/
def StoreInv (st : ServerState) : Prop :=
  (∀ e ∈ st.store, issuedBefore st.counter e.sid) ∧
  (st.store.map Entry.sid).Nodup

/-- One atomic event of the server: the clock advancing, an `/api/upload`
request, an `/api/chat` request, or a due expiry `setTimeout` firing. -/
inductive Step : ServerState → ServerState → Prop where
  | tick (st : ServerState) (d : Nat) :
      Step st { st with now := st.now + d }
  | upload (st : ServerState) (hasFile : Bool) (pdfResult : Except String String)
      (groq : String → Except String (Option String)) :
      Step st (handleUpload st hasFile pdfResult groq).2
  | chat (st : ServerState) (sessionId question : Option String)
      (groq : String → String → Except String (Option String)) :
      Step st (handleFollowUp st sessionId question groq).2
  | fire (st : ServerState) (e : Entry) :
      e ∈ st.store → e.expiresAt ≤ st.now →
      Step st { st with store := expire st.store e.sid }

/-- Reflexive-transitive closure of `Step`: any finite run of the server. -/
inductive Steps : ServerState → ServerState → Prop where
  | refl (st : ServerState) : Steps st st
  | tail {st st' st'' : ServerState} : Steps st st' → Step st' st'' → Steps st st''

/-! ### Basic lemmas about the id supply and the store operations -/

theorem genId_injective : Function.Injective genId := by
  intro m n h
  have h2 : (genId m).data.length = (genId n).data.length := by rw [h]
  simpa [genId] using h2

theorem genId_ne_empty (n : Nat) : genId n ≠ "" := by
  intro h
  have h2 : (genId n).data.length = ("" : String).data.length := by rw [h]
  simp [genId] at h2

theorem storeGet_eq_none {l : List Entry} {sid : String} :
    storeGet l sid = none ↔ ∀ e ∈ l, e.sid ≠ sid := by
  simp [storeGet, List.find?_eq_none]

theorem mem_of_storeGet_eq_some {l : List Entry} {sid t : String}
    (h : storeGet l sid = some t) :
    ∃ e, e ∈ l ∧ e.sid = sid ∧ e.documentText = t := by
  unfold storeGet at h
  cases hf : l.find? (fun e => e.sid == sid) with
  | none => rw [hf] at h; cases h
  | some e =>
    rw [hf] at h
    refine ⟨e, List.mem_of_find?_eq_some hf, ?_, ?_⟩
    · simpa using List.find?_some hf
    · simpa using h

theorem storeGet_eq_some_of_mem {l : List Entry} {e : Entry} (he : e ∈ l) :
    ∃ t, storeGet l e.sid = some t := by
  have hs : (l.find? (fun x => x.sid == e.sid)).isSome := by
    rw [List.find?_isSome]
    exact ⟨e, he, by simp⟩
  cases hf : l.find? (fun x => x.sid == e.sid) with
  | none => rw [hf] at hs; cases hs
  | some x => exact ⟨x.documentText, by unfold storeGet; rw [hf]; rfl⟩

theorem find?_entry_cons (q : Entry → Bool) (e : Entry) (l : List Entry) :
    (e :: l).find? q = if q e then some e else l.find? q := by
  cases hq : q e <;> simp [List.find?_cons, hq]

theorem find?_replace_self (l : List Entry) (e : Entry)
    (h : l.any (fun x => x.sid == e.sid) = true) :
    (l.map (fun x => if x.sid == e.sid then e else x)).find? (fun x => x.sid == e.sid)
      = some e := by
  induction l with
  | nil => simp at h
  | cons x xs ih =>
    rw [List.map_cons, find?_entry_cons]
    by_cases hx : (x.sid == e.sid : Bool)
    · rw [if_pos hx]
      rw [if_pos (by simp)]
    · have hx' : (x.sid == e.sid) = false := by simpa using hx
      rw [if_neg hx, if_neg hx]
      apply ih
      simpa [List.any_cons, hx', Bool.false_or] using h

theorem find?_append_self (l : List Entry) (e : Entry)
    (h : l.any (fun x => x.sid == e.sid) = false) :
    (l ++ [e]).find? (fun x => x.sid == e.sid) = some e := by
  rw [List.find?_append]
  have hnone : l.find? (fun x => x.sid == e.sid) = none := by
    rw [List.find?_eq_none]
    intro x hx
    have := List.any_eq_false.mp h x hx
    simpa using this
  simp [hnone]

theorem storeGet_storeSet_self (l : List Entry) (e : Entry) :
    storeGet (storeSet l e) e.sid = some e.documentText := by
  unfold storeGet storeSet
  by_cases h : l.any (fun x => x.sid == e.sid)
  · rw [if_pos h, find?_replace_self l e h]; rfl
  · have hf : l.any (fun x => x.sid == e.sid) = false := by simpa using h
    rw [if_neg h, find?_append_self l e hf]; rfl

theorem find?_replace_ne (l : List Entry) (e : Entry) (sid : String) (hne : sid ≠ e.sid) :
    (l.map (fun x => if x.sid == e.sid then e else x)).find? (fun x => x.sid == sid)
      = l.find? (fun x => x.sid == sid) := by
  induction l with
  | nil => rfl
  | cons x xs ih =>
    rw [List.map_cons, find?_entry_cons, find?_entry_cons]
    by_cases hx : (x.sid == e.sid : Bool)
    · have hxe : x.sid = e.sid := by simpa using hx
      have h1 : ¬ ((e.sid == sid) = true) := by simp [Ne.symm hne]
      have h2 : ¬ ((x.sid == sid) = true) := by simp [hxe, Ne.symm hne]
      rw [if_pos hx, if_neg h1, if_neg h2, ih]
    · rw [if_neg hx]
      by_cases hps : (x.sid == sid : Bool)
      · rw [if_pos hps, if_pos hps]
      · rw [if_neg hps, if_neg hps, ih]

theorem storeGet_storeSet_ne (l : List Entry) (e : Entry) (sid : String) (hne : sid ≠ e.sid) :
    storeGet (storeSet l e) sid = storeGet l sid := by
  unfold storeGet storeSet
  by_cases h : l.any (fun x => x.sid == e.sid)
  · rw [if_pos h, find?_replace_ne l e sid hne]
  · rw [if_neg h, List.find?_append]
    have h1 : ¬ ((e.sid == sid) = true) := by simp [Ne.symm hne]
    have h2 : ([e].find? (fun x => x.sid == sid)) = none := by
      rw [find?_entry_cons, if_neg h1, List.find?_nil]
    rw [h2]
    cases l.find? (fun x => x.sid == sid) <;> rfl

theorem mem_storeSet {l : List Entry} {e e' : Entry} (h : e' ∈ storeSet l e) :
    e' = e ∨ e' ∈ l := by
  unfold storeSet at h
  by_cases hany : l.any (fun x => x.sid == e.sid)
  · rw [if_pos hany] at h
    obtain ⟨x, hx, hfx⟩ := List.mem_map.mp h
    by_cases hxs : (x.sid == e.sid : Bool)
    · left; rw [← hfx]; simp [hxs]
    · right; rw [← hfx]; simpa [hxs] using hx
  · rw [if_neg hany] at h
    rcases List.mem_append.mp h with h1 | h1
    · right; exact h1
    · left; simpa using h1

theorem mem_storeSet_self (l : List Entry) (e : Entry) : e ∈ storeSet l e := by
  unfold storeSet
  by_cases hany : l.any (fun x => x.sid == e.sid)
  · rw [if_pos hany]
    obtain ⟨x, hx, hpx⟩ := List.any_eq_true.mp hany
    exact List.mem_map.mpr ⟨x, hx, by simp [hpx]⟩
  · rw [if_neg hany]
    exact List.mem_append.mpr (Or.inr (List.mem_singleton.mpr rfl))

theorem storeSet_of_any_eq_false {l : List Entry} {e : Entry}
    (h : l.any (fun x => x.sid == e.sid) = false) :
    storeSet l e = l ++ [e] := by
  unfold storeSet
  rw [if_neg (by simp [h])]

theorem storeGet_expire_self (l : List Entry) (sid : String) :
    storeGet (expire l sid) sid = none := by
  rw [storeGet_eq_none]
  intro e he
  have := (List.mem_filter.mp he).2
  simpa using this

theorem find?_filter_of_imp (l : List Entry) (p q : Entry → Bool)
    (himp : ∀ e, q e = true → p e = true) :
    (l.filter p).find? q = l.find? q := by
  induction l with
  | nil => rfl
  | cons e es ih =>
    by_cases hp : p e
    · rw [List.filter_cons_of_pos hp, find?_entry_cons, find?_entry_cons]
      by_cases hq : q e
      · rw [if_pos hq, if_pos hq]
      · rw [if_neg hq, if_neg hq, ih]
    · rw [List.filter_cons_of_neg hp, find?_entry_cons]
      have hq : ¬ q e := fun hq => hp (himp e hq)
      rw [if_neg hq, ih]

theorem storeGet_expire_ne (l : List Entry) (x sid : String) (h : sid ≠ x) :
    storeGet (expire l x) sid = storeGet l sid := by
  unfold storeGet expire
  rw [find?_filter_of_imp]
  intro e hq
  have h1 : e.sid = sid := by simpa using hq
  simp [h1, h]

theorem expire_expire (l : List Entry) (sid : String) :
    expire (expire l sid) sid = expire l sid := by
  simp [expire, List.filter_filter]

theorem expire_eq_self_of_storeGet_eq_none {l : List Entry} {sid : String}
    (h : storeGet l sid = none) : expire l sid = l := by
  rw [expire, List.filter_eq_self]
  intro e he
  have := storeGet_eq_none.mp h e he
  simpa using this

/-! ### State effects of the two route handlers -/

theorem handleFollowUp_snd (st : ServerState) (sessionId question : Option String)
    (groq : String → String → Except String (Option String)) :
    (handleFollowUp st sessionId question groq).2 = st := by
  unfold handleFollowUp
  by_cases h1 : (jsFalsy sessionId || jsFalsy question : Bool)
  · rw [if_pos h1]
  · rw [if_neg h1]
    by_cases h2 : (jsFalsy (storeGet st.store (sessionId.getD "")) : Bool)
    · simp only [h2, if_true]
    · simp only [h2, if_false, Bool.false_eq_true]
      cases getFollowUpAIResponse groq ((storeGet st.store (sessionId.getD "")).getD "")
          (question.getD "") <;> rfl

theorem handleUpload_snd (st : ServerState) (hasFile : Bool)
    (pdfResult : Except String String)
    (groq : String → Except String (Option String)) :
    (handleUpload st hasFile pdfResult groq).2 = st ∨
    ∃ t, pdfResult = Except.ok t ∧
      (handleUpload st hasFile pdfResult groq).2 = uploadState st t := by
  cases hasFile with
  | false => left; rfl
  | true =>
    cases pdfResult with
    | error e => left; rfl
    | ok t =>
      right
      refine ⟨t, rfl, ?_⟩
      unfold handleUpload
      cases hai : getInitialAIAnalysis groq t with
      | error e => simp [hai]
      | ok s => simp [hai]

/-! ### The reachability invariant and its preservation -/

theorem issuedBefore_mono {m n : Nat} (h : m ≤ n) {sid : String}
    (hi : issuedBefore m sid) : issuedBefore n sid := by
  obtain ⟨k, hk, rfl⟩ := hi
  exact ⟨k, lt_of_lt_of_le hk h, rfl⟩

theorem not_issued_genId_counter (n : Nat) : ¬ issuedBefore n (genId n) := by
  rintro ⟨k, hk, hgen⟩
  exact absurd (genId_injective hgen.symm) (Nat.ne_of_lt hk)

theorem storeGet_counter_eq_none {st : ServerState} (hInv : StoreInv st) :
    storeGet st.store (genId st.counter) = none := by
  rw [storeGet_eq_none]
  intro e he heq
  exact not_issued_genId_counter st.counter (heq ▸ hInv.1 e he)

theorem any_counter_eq_false {st : ServerState} (hInv : StoreInv st) (t : String) (exp : Nat) :
    st.store.any (fun x => x.sid == (Entry.mk (genId st.counter) t exp).sid) = false := by
  rw [List.any_eq_false]
  intro x hx
  have := storeGet_eq_none.mp (storeGet_counter_eq_none hInv) x hx
  simpa using this

theorem uploadState_store {st : ServerState} (hInv : StoreInv st) (t : String) :
    (uploadState st t).store = st.store ++ [⟨genId st.counter, t, st.now + TTL⟩] := by
  unfold uploadState
  exact storeSet_of_any_eq_false (any_counter_eq_false hInv t (st.now + TTL))

theorem eq_of_mem_of_sid_eq {l : List Entry} (hN : (l.map Entry.sid).Nodup)
    {e e' : Entry} (he : e ∈ l) (he' : e' ∈ l) (h : e'.sid = e.sid) : e' = e :=
  List.inj_on_of_nodup_map hN he' he h

theorem storeInv_uploadState {st : ServerState} (hInv : StoreInv st) (t : String) :
    StoreInv (uploadState st t) := by
  constructor
  · intro e he
    rw [uploadState_store hInv] at he
    rcases List.mem_append.mp he with h1 | h1
    · exact issuedBefore_mono (Nat.le_succ _) (hInv.1 e h1)
    · have : e = ⟨genId st.counter, t, st.now + TTL⟩ := by simpa using h1
      exact ⟨st.counter, Nat.lt_succ_self _, by rw [this]⟩
  · rw [uploadState_store hInv, List.map_append]
    rw [List.nodup_append]
    refine ⟨hInv.2, List.nodup_singleton _, ?_⟩
    intro s hs hs'
    have hgen : s = genId st.counter := by simpa using hs'
    obtain ⟨e, he, hes⟩ := List.mem_map.mp hs
    have := storeGet_eq_none.mp (storeGet_counter_eq_none hInv) e he
    exact this (hes.trans hgen)

theorem step_preserved {st st' : ServerState} (h : Step st st') (hInv : StoreInv st) :
    StoreInv st' ∧ st.counter ≤ st'.counter ∧ st.now ≤ st'.now ∧
    (∀ e, e ∈ st.store → ∀ e', e' ∈ st'.store → e'.sid = e.sid → e' = e) ∧
    (∀ sid, issuedBefore st.counter sid → storeGet st.store sid = none →
      storeGet st'.store sid = none) := by
  cases h with
  | tick d =>
    exact ⟨hInv, le_refl _, Nat.le_add_right _ _,
      fun e he e' he' hs => eq_of_mem_of_sid_eq hInv.2 he he' hs,
      fun sid _ hn => hn⟩
  | chat sessionId question groq =>
    rw [handleFollowUp_snd]
    exact ⟨hInv, le_refl _, le_refl _,
      fun e he e' he' hs => eq_of_mem_of_sid_eq hInv.2 he he' hs,
      fun sid _ hn => hn⟩
  | fire e hmem hdue =>
    refine ⟨⟨?_, ?_⟩, le_refl _, le_refl _, ?_, ?_⟩
    · intro x hx
      exact hInv.1 x ((List.mem_filter.mp hx).1)
    · exact hInv.2.sublist ((List.filter_sublist _).map Entry.sid)
    · intro x hx x' hx' hs
      exact eq_of_mem_of_sid_eq hInv.2 hx ((List.mem_filter.mp hx').1) hs
    · intro sid _ hn
      by_cases hse : sid = e.sid
      · rw [hse]; exact storeGet_expire_self _ _
      · rw [storeGet_expire_ne _ _ _ hse]; exact hn
  | upload hasFile pdfResult groq =>
    rcases handleUpload_snd st hasFile pdfResult groq with heq | ⟨t, _, heq⟩
    · rw [heq]
      exact ⟨hInv, le_refl _, le_refl _,
        fun e he e' he' hs => eq_of_mem_of_sid_eq hInv.2 he he' hs,
        fun sid _ hn => hn⟩
    · rw [heq]
      refine ⟨storeInv_uploadState hInv t, Nat.le_succ _, le_refl _, ?_, ?_⟩
      · intro e he e' he' hs
        rw [uploadState_store hInv] at he'
        rcases List.mem_append.mp he' with h1 | h1
        · exact eq_of_mem_of_sid_eq hInv.2 he h1 hs
        · exfalso
          have he'new : e' = ⟨genId st.counter, t, st.now + TTL⟩ := by simpa using h1
          have : e.sid = genId st.counter := by rw [← hs, he'new]
          exact storeGet_eq_none.mp (storeGet_counter_eq_none hInv) e he this
      · intro sid hiss hn
        have hne : sid ≠ genId st.counter := by
          intro hcon
          exact not_issued_genId_counter st.counter (hcon ▸ hiss)
        unfold uploadState
        rw [storeGet_storeSet_ne _ _ _ hne]
        exact hn

theorem steps_preserved {st st' : ServerState} (h : Steps st st') (hInv : StoreInv st) :
    StoreInv st' ∧ st.counter ≤ st'.counter ∧ st.now ≤ st'.now ∧
    (∀ e, e ∈ st.store → ∀ e', e' ∈ st'.store → e'.sid = e.sid → e' = e) ∧
    (∀ sid, issuedBefore st.counter sid → storeGet st.store sid = none →
      storeGet st'.store sid = none) := by
  induction h with
  | refl =>
    exact ⟨hInv, le_refl _, le_refl _,
      fun e he e' he' hs => eq_of_mem_of_sid_eq hInv.2 he he' hs,
      fun sid _ hn => hn⟩
  | @tail s2 s3 hsteps hstep ih =>
    obtain ⟨hInv2, hc, hn, hpers, hdead⟩ := ih
    obtain ⟨hInv3, hc', hn', hpers', hdead'⟩ := step_preserved hstep hInv2
    refine ⟨hInv3, le_trans hc hc', le_trans hn hn', ?_, ?_⟩
    · intro e he e'' he'' hsid
      cases hmid : storeGet s2.store e.sid with
      | none =>
        exfalso
        have hiss : issuedBefore s2.counter e.sid :=
          issuedBefore_mono hc (hInv.1 e he)
        have hnone : storeGet s3.store e.sid = none := hdead' e.sid hiss hmid
        obtain ⟨t, ht⟩ := storeGet_eq_some_of_mem he''
        rw [hsid, hnone] at ht
        cases ht
      | some t =>
        obtain ⟨em, hem, hems, _⟩ := mem_of_storeGet_eq_some hmid
        have heme : em = e := hpers e he em hem hems
        rw [heme] at hem
        exact hpers' e hem e'' he'' hsid
    · intro sid hiss hnone
      exact hdead' sid (issuedBefore_mono hc hiss) (hdead sid hiss hnone)

theorem handleUpload_snd_ok (st : ServerState) (t : String)
    (groq : String → Except String (Option String)) :
    (handleUpload st true (Except.ok t) groq).2 = uploadState st t := by
  unfold handleUpload
  cases hai : getInitialAIAnalysis groq t <;> simp [hai]

theorem storeInv_init : StoreInv ⟨[], 0, 0⟩ :=
  ⟨fun e he => absurd he (List.not_mem_nil e), List.nodup_nil⟩

/-! ### The claims -/

/-- C6: Answer-provider fallback chaining.  For every message list, when the
primary provider (Sarvam) throws, `getSarvamChatResponse` transparently
invokes the fallback provider `getGroqAnalysis` on the same messages; when
the fallback then succeeds with an answer, that answer is returned; and when
both providers throw, the caller receives the generic service-error
sentence. -/
theorem fallback_provider_chaining (messages : List Message)
    (sarvam groq : List Message → Except String (Option String)) :
    (∀ e, sarvam messages = Except.error e →
      getSarvamChatResponse sarvam groq messages = getGroqAnalysis groq messages) ∧
    (∀ e c, sarvam messages = Except.error e → groq messages = Except.ok (some c) →
      c ≠ "" → getSarvamChatResponse sarvam groq messages = c) ∧
    (∀ e e', sarvam messages = Except.error e → groq messages = Except.error e' →
      getSarvamChatResponse sarvam groq messages =
        "Sorry, I encountered an error while analyzing the document with the AI service.") := by
  refine ⟨?_, ?_, ?_⟩
  · intro e hs
    unfold getSarvamChatResponse
    rw [hs]
  · intro e c hs hg hc
    unfold getSarvamChatResponse getGroqAnalysis
    rw [hs, hg]
    simp [jsOr, hc]
  · intro e e' hs hg
    unfold getSarvamChatResponse getGroqAnalysis
    rw [hs, hg]

/-- C6 witness: a concrete Sarvam outage falls through to the Groq answer,
and a double outage yields the generic service error. -/
theorem fallback_provider_chaining_witness :
    getSarvamChatResponse (fun _ => Except.error "sarvam down")
      (fun _ => Except.ok (some "the answer")) [] = "the answer" ∧
    getSarvamChatResponse (fun _ => Except.error "sarvam down")
      (fun _ => Except.error "groq down") [] =
      "Sorry, I encountered an error while analyzing the document with the AI service." :=
  ⟨(fallback_provider_chaining [] (fun _ => Except.error "sarvam down")
      (fun _ => Except.ok (some "the answer"))).2.1 "sarvam down" "the answer" rfl rfl
      (by decide),
   (fallback_provider_chaining [] (fun _ => Except.error "sarvam down")
      (fun _ => Except.error "groq down")).2.2 "sarvam down" "groq down" rfl rfl⟩

/-- C7: Translation failure is always absorbed.  For every input text and
language pair, a thrown translation error, an absent `translated_text`
field, and an empty `translated_text` all make `translateText` return the
original input text unchanged; the function is total, so no failure
propagates as a hard error. -/
theorem translation_failure_absorbed (text target source : String)
    (apiResult : Except String (Option String)) :
    (∀ e, apiResult = Except.error e → translateText text target source apiResult = text) ∧
    (apiResult = Except.ok none → translateText text target source apiResult = text) ∧
    (apiResult = Except.ok (some "") → translateText text target source apiResult = text) := by
  refine ⟨?_, ?_, ?_⟩
  · intro e he
    subst he
    unfold translateText
    by_cases ht : target = "en-IN" <;> simp [ht]
  · intro he
    subst he
    unfold translateText
    by_cases ht : target = "en-IN" <;> simp [ht, jsOr]
  · intro he
    subst he
    unfold translateText
    by_cases ht : target = "en-IN" <;> simp [ht, jsOr]

/-- C7 witness: a concrete thrown translation error and a concrete response
with no `translated_text` both pass the input through unchanged. -/
theorem translation_failure_absorbed_witness :
    translateText "Namaste" "hi-IN" "en-IN" (Except.error "api down") = "Namaste" ∧
    translateText "Namaste" "hi-IN" "en-IN" (Except.ok none) = "Namaste" :=
  ⟨(translation_failure_absorbed "Namaste" "hi-IN" "en-IN" (Except.error "api down")).1
      "api down" rfl,
   (translation_failure_absorbed "Namaste" "hi-IN" "en-IN" (Except.ok none)).2.1 rfl⟩

/-- C8: `get` is side-effect-free: an `/api/chat` request leaves the whole
server state (store entries, their fixed `expiresAt` instants, counter and
clock) exactly unchanged, whatever the lookup outcome; in particular it
never renews or extends a session's TTL. -/
theorem chat_lookup_side_effect_free (st : ServerState)
    (sessionId question : Option String)
    (groq : String → String → Except String (Option String)) :
    (handleFollowUp st sessionId question groq).2 = st :=
  handleFollowUp_snd st sessionId question groq

/-- C9: `expire` is idempotent: deleting a session id a second time is a
no-op, and deleting an id that is not in the store leaves it exactly as it
was; `expire` is a total function, so the call cannot fail. -/
theorem expire_idempotent (l : List Entry) (sid : String) :
    expire (expire l sid) sid = expire l sid ∧
    (storeGet l sid = none → expire l sid = l) :=
  ⟨expire_expire l sid, expire_eq_self_of_storeGet_eq_none⟩

/-- C9 witness: concretely deleting an absent id twice: the first call is
already a no-op and the second changes nothing either. -/
theorem expire_idempotent_witness :
    expire (expire [Entry.mk "s" "Lease" 5] "zz") "zz" = expire [Entry.mk "s" "Lease" 5] "zz" ∧
    expire [Entry.mk "s" "Lease" 5] "zz" = [Entry.mk "s" "Lease" 5] := by
  have h := expire_idempotent [Entry.mk "s" "Lease" 5] "zz"
  exact ⟨h.1, h.2 (by decide)⟩ 

/-- C5: Extraction failure creates no session.  When the PDF parse throws,
the upload handler leaves the server state (store and uuid counter) exactly
as it was; when the thrown error signals corruption (its lowercased message
contains `'xref'`, the code's corrupted-input signal), the response is the
400 "re-save and try again" outcome; and the id the upload would have
issued resolves to nothing afterwards, so no `get` for a newly-expected id
can succeed. -/
theorem extraction_failure_no_session (st : ServerState) (errMsg : String)
    (groq : String → Except String (Option String)) :
    (handleUpload st true (Except.error errMsg) groq).2 = st ∧
    (isXrefError errMsg = true →
      (handleUpload st true (Except.error errMsg) groq).1 =
        UploadResult.badRequest
          "The uploaded PDF appears to be corrupted. Please re-save it and try again.") ∧
    (StoreInv st → storeGet st.store (genId st.counter) = none) := by
  refine ⟨rfl, ?_, ?_⟩
  · intro hx
    unfold handleUpload uploadCatch
    simp [hx]
  · intro hInv
    exact storeGet_counter_eq_none hInv

/-- C5 witness: a concrete corrupted-PDF parse error (message mentioning the
xref table) is reported as the 400 corruption outcome and leaves the empty
initial store untouched. -/
theorem extraction_failure_no_session_witness :
    (handleUpload ⟨[], 0, 0⟩ true (Except.error "bad XREF entry")
        (fun _ => Except.ok (some "s"))).2 = ⟨[], 0, 0⟩ ∧
    (handleUpload ⟨[], 0, 0⟩ true (Except.error "bad XREF entry")
        (fun _ => Except.ok (some "s"))).1 =
      UploadResult.badRequest
        "The uploaded PDF appears to be corrupted. Please re-save it and try again." ∧
    storeGet ([] : List Entry) (genId 0) = none := by
  have h := extraction_failure_no_session ⟨[], 0, 0⟩ "bad XREF entry"
    (fun _ => Except.ok (some "s"))
  exact ⟨h.1, h.2.1 (by decide), h.2.2 storeInv_init⟩

/-- C10 (implicit): session creation is not rolled back on a later failure.
When the PDF parse succeeds but the initial AI-analysis call throws, the
upload response is an error response carrying no session id, yet the
session entry inserted before the AI call remains in the store with its
30-minute expiry instant `now + TTL` still scheduled. -/
theorem upload_session_not_rolled_back (st : ServerState) (documentText aiErr : String) :
    (∀ m s, (handleUpload st true (Except.ok documentText) (fun _ => Except.error aiErr)).1
      ≠ UploadResult.ok m s) ∧
    (handleUpload st true (Except.ok documentText) (fun _ => Except.error aiErr)).2
      = uploadState st documentText ∧
    storeGet ((handleUpload st true (Except.ok documentText)
        (fun _ => Except.error aiErr)).2).store (genId st.counter) = some documentText ∧
    (⟨genId st.counter, documentText, st.now + TTL⟩ : Entry) ∈
      ((handleUpload st true (Except.ok documentText) (fun _ => Except.error aiErr)).2).store := by
  have hred : handleUpload st true (Except.ok documentText) (fun _ => Except.error aiErr)
      = (uploadCatch aiErr, uploadState st documentText) := rfl
  refine ⟨?_, ?_, ?_, ?_⟩
  · intro m s hcon
    rw [hred] at hcon
    unfold uploadCatch at hcon
    by_cases hx : isXrefError aiErr
    · rw [if_pos hx] at hcon; cases hcon
    · rw [if_neg hx] at hcon; cases hcon
  · rw [hred]
  · rw [hred]
    exact storeGet_storeSet_self st.store ⟨genId st.counter, documentText, st.now + TTL⟩
  · rw [hred]
    exact mem_storeSet_self st.store ⟨genId st.counter, documentText, st.now + TTL⟩

/-- C10 witness: a concrete run from the empty state in which the AI call
throws: the response is the generic 500, yet the session entry is in the
store with its 30-minute expiry scheduled. -/
theorem upload_session_not_rolled_back_witness :
    (handleUpload ⟨[], 0, 0⟩ true (Except.ok "Lease")
        (fun _ => Except.error "groq down")).1 ≠ UploadResult.ok "any" (genId 0) ∧
    storeGet ((handleUpload ⟨[], 0, 0⟩ true (Except.ok "Lease")
        (fun _ => Except.error "groq down")).2).store (genId 0) = some "Lease" ∧
    (⟨genId 0, "Lease", 0 + TTL⟩ : Entry) ∈
      ((handleUpload ⟨[], 0, 0⟩ true (Except.ok "Lease")
        (fun _ => Except.error "groq down")).2).store := by
  have h := upload_session_not_rolled_back ⟨[], 0, 0⟩ "Lease" "groq down"
  exact ⟨h.1 "any" (genId 0), h.2.2.1, h.2.2.2⟩

/-- C3 counterexample: the empty string is a session id never returned by
any create, yet with a non-empty question the chat handler rejects it with
the generic 400 "required fields" response (JavaScript treats `""` as
falsy), not with the 404 session-expired outcome the claim requires. -/
theorem bogus_session_counterexample :
    handleFollowUp ⟨[], 0, 0⟩ (some "") (some "What is the rent?")
        (fun _ _ => Except.ok (some "answer"))
      = (ChatResult.badRequest "Session ID and question are required.", ⟨[], 0, 0⟩) ∧
    (handleFollowUp ⟨[], 0, 0⟩ (some "") (some "What is the rent?")
        (fun _ _ => Except.ok (some "answer"))).1
      ≠ ChatResult.notFound
          "Your document session has expired or is invalid. Please upload the document again." := by
  exact ⟨by decide, by decide⟩

/-- C3 (amended): for every NON-EMPTY session id that was never returned by
any create, `handleFollowUp` with a non-empty question returns the
distinguishable 404 session-expired outcome — whatever the answering
provider is, so no answer request is built (the result does not depend on
`groq`).  (The empty string, though never issued, is instead rejected as a
missing field with the 400 response.) -/
theorem bogus_session_distinguishable (st : ServerState) (sid question : String)
    (groq : String → String → Except String (Option String))
    (hInv : StoreInv st) (hsid : sid ≠ "") (hq : question ≠ "")
    (hbogus : ¬ issuedBefore st.counter sid) :
    handleFollowUp st (some sid) (some question) groq
      = (ChatResult.notFound
          "Your document session has expired or is invalid. Please upload the document again.",
         st) := by
  have hget : storeGet st.store sid = none := by
    rw [storeGet_eq_none]
    intro e he hes
    exact hbogus (hes ▸ hInv.1 e he)
  unfold handleFollowUp
  have h1 : (jsFalsy (some sid) || jsFalsy (some question)) = false := by
    simp [jsFalsy, hsid, hq]
  rw [if_neg (by simp [h1])]
  have h2 : storeGet st.store ((some sid).getD "") = none := hget
  rw [h2]
  rfl

/-- C3 witness: a concrete bogus id on the empty initial store yields the
404 session-expired outcome. -/
theorem bogus_session_distinguishable_witness :
    handleFollowUp ⟨[], 0, 0⟩ (some "bogus-id") (some "What is the rent?")
        (fun _ _ => Except.ok (some "answer"))
      = (ChatResult.notFound
          "Your document session has expired or is invalid. Please upload the document again.",
         ⟨[], 0, 0⟩) := by
  exact bogus_session_distinguishable ⟨[], 0, 0⟩ "bogus-id" "What is the rent?"
    (fun _ _ => Except.ok (some "answer")) storeInv_init (by decide) (by decide)
    (by rintro ⟨k, hk, _⟩; exact absurd hk (Nat.not_lt_zero k))

/-- C1 counterexample: with the empty document text, the upload succeeds and
returns a fresh session id, but the immediate lookup of that id in the chat
handler treats the stored `""` as falsy (`!documentText`) and returns the
404 session-expired outcome instead of the stored text. -/
theorem round_trip_counterexample :
    (handleUpload ⟨[], 0, 0⟩ true (Except.ok "")
        (fun _ => Except.ok (some "summary"))).1 = UploadResult.ok "summary" (genId 0) ∧
    handleFollowUp ((handleUpload ⟨[], 0, 0⟩ true (Except.ok "")
        (fun _ => Except.ok (some "summary"))).2)
        (some (genId 0)) (some "What is the rent?") (fun _ _ => Except.ok (some "answer"))
      = (ChatResult.notFound
          "Your document session has expired or is invalid. Please upload the document again.",
         (handleUpload ⟨[], 0, 0⟩ true (Except.ok "")
            (fun _ => Except.ok (some "summary"))).2) := by
  exact ⟨by decide, by decide⟩

/-- C1 (amended): for every NON-EMPTY document text, a successful upload
that creates a session followed immediately by a lookup of the returned
session id finds exactly the stored text, unchanged: the raw store lookup
returns it, and the chat handler forwards precisely that text to the
follow-up answer request.  (For the empty document text the lookup instead
reports the session as expired or invalid; see the counterexample.) -/
theorem round_trip (st : ServerState) (documentText question : String)
    (groqUpload : String → Except String (Option String))
    (groqChat : String → String → Except String (Option String))
    (hdoc : documentText ≠ "") (hq : question ≠ "") :
    storeGet ((handleUpload st true (Except.ok documentText) groqUpload).2).store
      (genId st.counter) = some documentText ∧
    handleFollowUp ((handleUpload st true (Except.ok documentText) groqUpload).2)
        (some (genId st.counter)) (some question) groqChat
      = ((match getFollowUpAIResponse groqChat documentText question with
          | .ok r => ChatResult.ok r
          | .error _ => ChatResult.serverError "Failed to get a response from the AI."),
         (handleUpload st true (Except.ok documentText) groqUpload).2) := by
  rw [handleUpload_snd_ok]
  have hget : storeGet (uploadState st documentText).store (genId st.counter)
      = some documentText :=
    storeGet_storeSet_self st.store ⟨genId st.counter, documentText, st.now + TTL⟩
  refine ⟨hget, ?_⟩
  unfold handleFollowUp
  have h1 : (jsFalsy (some (genId st.counter)) || jsFalsy (some question)) = false := by
    simp [jsFalsy, genId_ne_empty st.counter, hq]
  rw [if_neg (by simp [h1])]
  have h2 : storeGet (uploadState st documentText).store ((some (genId st.counter)).getD "")
      = some documentText := hget
  rw [h2]
  have h3 : jsFalsy (some documentText) = false := by simp [jsFalsy, hdoc]
  rw [if_neg (by simp [h3])]
  cases hr : getFollowUpAIResponse groqChat documentText question with
  | error e => rw [show ((some documentText).getD "") = documentText from rfl,
      show ((some question).getD "") = question from rfl, hr]
  | ok r => rw [show ((some documentText).getD "") = documentText from rfl,
      show ((some question).getD "") = question from rfl, hr]

/-- C1 witness: a concrete lease text round-trips through upload and
follow-up lookup, and the follow-up succeeds with the provider's answer. -/
theorem round_trip_witness :
    storeGet ((handleUpload ⟨[], 0, 0⟩ true (Except.ok "Lease Agreement between A and B")
        (fun _ => Except.ok (some "summary"))).2).store (genId 0)
      = some "Lease Agreement between A and B" ∧
    handleFollowUp ((handleUpload ⟨[], 0, 0⟩ true (Except.ok "Lease Agreement between A and B")
        (fun _ => Except.ok (some "summary"))).2)
        (some (genId 0)) (some "What is the rent?") (fun _ _ => Except.ok (some "answer"))
      = (ChatResult.ok "answer",
         (handleUpload ⟨[], 0, 0⟩ true (Except.ok "Lease Agreement between A and B")
            (fun _ => Except.ok (some "summary"))).2) := by
  have h := round_trip ⟨[], 0, 0⟩ "Lease Agreement between A and B" "What is the rent?"
    (fun _ => Except.ok (some "summary")) (fun _ _ => Except.ok (some "answer"))
    (by decide) (by decide)
  exact ⟨h.1, h.2⟩

/-- C4: Session ids are pairwise distinct.  After a create (a successful
upload) issues the id `genId st.counter`, the id that the next create would
issue in any later reachable state is different (the uuid supply never
repeats a draw, so any two creates — however interleaved — yield distinct
ids); and in every reachable store state the session ids of the live
entries are pairwise distinct, so each id maps to at most one entry. -/
theorem session_ids_distinct (st st' : ServerState) (documentText : String)
    (groq : String → Except String (Option String))
    (hInv : StoreInv st)
    (hSteps : Steps (handleUpload st true (Except.ok documentText) groq).2 st') :
    genId st'.counter ≠ genId st.counter ∧
    (st'.store.map Entry.sid).Nodup := by
  rw [handleUpload_snd_ok] at hSteps
  have h1 := steps_preserved hSteps (storeInv_uploadState hInv documentText)
  constructor
  · intro hcon
    have hcc : st'.counter = st.counter := genId_injective hcon
    have h2 : st.counter + 1 ≤ st'.counter := h1.2.1
    omega
  · exact h1.1.2

/-- C4 witness: immediately after the first create from the empty state, the
next id to be issued differs from the issued one and the store keys are
duplicate-free. -/
theorem session_ids_distinct_witness :
    genId (uploadState ⟨[], 0, 0⟩ "Lease").counter ≠ genId 0 ∧
    ((uploadState ⟨[], 0, 0⟩ "Lease").store.map Entry.sid).Nodup := by
  exact session_ids_distinct ⟨[], 0, 0⟩ (uploadState ⟨[], 0, 0⟩ "Lease") "Lease"
    (fun _ => Except.ok (some "summary")) storeInv_init
    (handleUpload_snd_ok ⟨[], 0, 0⟩ "Lease" (fun _ => Except.ok (some "summary")) ▸
      Steps.refl _)

/-- C2: Fixed 30-minute expiry, and `Expired` is terminal.  Immediately
after a create the lookup of the fresh id succeeds; in any later reachable
state whose clock has passed `createdAt + TTL` and in which every due
expiry timeout has fired, the same lookup returns nothing; and once the
lookup of that id returns nothing, it returns nothing in every further
reachable state — no operation ever makes the id resolvable again. -/
theorem session_expiry_terminal (st st' st'' : ServerState) (documentText : String)
    (groq : String → Except String (Option String))
    (hInv : StoreInv st) :
    storeGet ((handleUpload st true (Except.ok documentText) groq).2).store
      (genId st.counter) = some documentText ∧
    (Steps (handleUpload st true (Except.ok documentText) groq).2 st' →
      st.now + TTL ≤ st'.now →
      (∀ e ∈ st'.store, st'.now < e.expiresAt) →
      storeGet st'.store (genId st.counter) = none) ∧
    (Steps (handleUpload st true (Except.ok documentText) groq).2 st' →
      storeGet st'.store (genId st.counter) = none →
      Steps st' st'' →
      storeGet st''.store (genId st.counter) = none) := by
  rw [handleUpload_snd_ok]
  have hInv1 := storeInv_uploadState hInv documentText
  refine ⟨storeGet_storeSet_self st.store ⟨genId st.counter, documentText, st.now + TTL⟩,
    ?_, ?_⟩
  · intro hSteps hTTL hFired
    have hpres := steps_preserved hSteps hInv1
    cases hget : storeGet st'.store (genId st.counter) with
    | none => rfl
    | some t =>
      exfalso
      obtain ⟨e', he', hes, _⟩ := mem_of_storeGet_eq_some hget
      have hemem : (⟨genId st.counter, documentText, st.now + TTL⟩ : Entry)
          ∈ (uploadState st documentText).store :=
        mem_storeSet_self st.store ⟨genId st.counter, documentText, st.now + TTL⟩
      have he'eq : e' = ⟨genId st.counter, documentText, st.now + TTL⟩ :=
        hpres.2.2.2.1 _ hemem e' he' hes
      have hlt := hFired e' he'
      rw [he'eq] at hlt
      have : st.now + TTL ≤ st'.now := hTTL
      simp only [Entry.mk.injEq] at hlt
      omega
  · intro hSteps hNone hSteps'
    have hpres := steps_preserved hSteps hInv1
    have hcount : st.counter + 1 ≤ st'.counter := hpres.2.1
    have hiss : issuedBefore st'.counter (genId st.counter) :=
      ⟨st.counter, by omega, rfl⟩
    exact (steps_preserved hSteps' hpres.1).2.2.2.2 _ hiss hNone

/-- C2 witness: a concrete run from the empty state — create a session for
"Lease", advance the clock by the 30-minute TTL, let the due timeout fire:
the earlier lookup succeeded and the same lookup now returns nothing. -/
theorem session_expiry_terminal_witness :
    storeGet ((handleUpload ⟨[], 0, 0⟩ true (Except.ok "Lease")
        (fun _ => Except.ok (some "summary"))).2).store (genId 0) = some "Lease" ∧
    storeGet (ServerState.mk [] 1 TTL).store (genId 0) = none := by
  have h := session_expiry_terminal ⟨[], 0, 0⟩ ⟨[], 1, TTL⟩ ⟨[], 1, TTL⟩ "Lease"
    (fun _ => Except.ok (some "summary")) storeInv_init
  refine ⟨h.1, h.2.1 ?_ (by decide) (by decide)⟩
  refine Steps.tail (Steps.tail (Steps.refl _)
    (Step.tick ((handleUpload ⟨[], 0, 0⟩ true (Except.ok "Lease")
      (fun _ => Except.ok (some "summary"))).2) TTL)) ?_
  exact Step.fire _ ⟨genId 0, "Lease", 0 + TTL⟩ (by decide) (by decide)
